import Mathlib

/-!
Shallow embedding of the photo-change browser application:
- `components/RefinePanel.tsx` / `components/ImageEditor.tsx`: the mask-drawing
  editor (canvas sizing, white mask initialisation, black brush strokes);
- `utils/fileUtils.ts` (`fileToBase64`): client-side downscaling before upload;
- `services/geminiService.ts` (`swapCharactersInImage`, `inpaintImage`):
  prompt templating, request construction and response extraction;
- `App.tsx`: generate / inpaint state handling.
JavaScript numbers are modelled as exact rationals (`ℚ`), strings as `String`,
optional/undefined values as `Option`, and promise rejection as `Except`.
-/

namespace PhotoChange

/-- An RGB colour as painted on a canvas. -/
structure Color where
  r : ℕ
  g : ℕ
  b : ℕ
deriving DecidableEq, Repr

/-- CSS colour `white`, used to initialise the mask canvas. -/
def Color.white : Color := ⟨255, 255, 255⟩

/-- CSS colour `black`, the brush colour on the hidden mask canvas. -/
def Color.black : Color := ⟨0, 0, 0⟩

/-- A point of the canvas plane. -/
abbrev Pt := ℚ × ℚ

/-- Euclidean dot product on the plane. -/
def dotP (u v : Pt) : ℚ := u.1 * v.1 + u.2 * v.2

/-- Pointwise difference of two points. -/
def subP (u v : Pt) : Pt := (u.1 - v.1, u.2 - v.2)

/-- Squared Euclidean distance between two points. -/
def distSq (u v : Pt) : ℚ := dotP (subP u v) (subP u v)

/-- Squared distance from a point to the segment `[a, b]` (clamped projection;
when the segment is degenerate this is the distance to its single point). -/
def distSqToSegment (p a b : Pt) : ℚ :=
  let ab := subP b a
  let len2 := dotP ab ab
  if len2 = 0 then distSq p a
  else
    let t := dotP (subP p a) ab / len2
    let tc := max 0 (min 1 t)
    distSq p (a.1 + tc * ab.1, a.2 + tc * ab.2)

/-- One brush stroke of `ImageEditor.draw`: a line segment from the previous
mouse position to the current one, stroked with `lineWidth = brushSize` and
round caps/joins (`ctx.lineCap = ctx.lineJoin = 'round'`). -/
structure Stroke where
  start : Pt
  stop : Pt
  width : ℚ
deriving DecidableEq

/-- The set of points painted by a stroke: with round caps and joins, a stroked
segment of width `w` covers exactly the points at distance at most `w / 2` from
the segment. -/
def strokeCovers (st : Stroke) (q : Pt) : Bool :=
  decide (distSqToSegment q st.start st.stop ≤ (st.width / 2) ^ 2)

/-- A rasterised canvas state: a colour at every point. -/
abbrev Mask := Pt → Color

/-- Initial content of the hidden mask canvas (`ImageEditor` image-load
effect): `maskCtx.fillStyle = 'white'; maskCtx.fillRect(0, 0, width, height)`. -/
def maskInit : Mask := fun _ => Color.white

/-- Effect of one `draw` call on the hidden mask canvas:
`drawOnCanvas(maskCtx, 'black')` paints solid black along the stroke and leaves
every other point unchanged. -/
def applyStroke (st : Stroke) (m : Mask) : Mask :=
  fun q => if strokeCovers st q then Color.black else m q

/-- Effect of a whole sequence of brush strokes on the mask canvas. -/
def applyStrokes (strokes : List Stroke) (m : Mask) : Mask :=
  strokes.foldl (fun acc st => applyStroke st acc) m

/-- Display-canvas dimensions chosen by the `ImageEditor` image-load effect:
`if (width > MAX_DIM || height > MAX_DIM)` the image is fitted so that its
larger dimension becomes `MAX_DIM = 1024`. -/
def editorDims (w h : ℚ) : ℚ × ℚ :=
  if w > 1024 ∨ h > 1024 then
    if w > h then (1024, h / w * 1024) else (w / h * 1024, 1024)
  else (w, h)

/-- Size given to the visible editor canvas (`canvas.width/height`). -/
def editorCanvasSize (w h : ℚ) : ℚ × ℚ := editorDims w h

/-- Size given to the hidden mask canvas (`maskCanvas.width/height`), assigned
from the same `width`/`height` variables as the display canvas. -/
def maskCanvasSize (w h : ℚ) : ℚ × ℚ := editorDims w h

/-- The fixed inpainting prompt of `inpaintImage` (`geminiService.ts`). -/
def inpaintPrompt : String :=
  "\n      You are an expert in photo restoration and editing.\n      The user has provided an image and a corresponding mask image.\n      Your task is to perform an inpainting operation.\n      The area of the image corresponding to the black area in the mask needs to be removed.\n      You must then seamlessly and realistically fill in the removed area with new content that matches the surrounding context, lighting, textures, and overall style of the original image.\n      Do not alter any parts of the image that are not covered by the mask.\n      The final output must be a single, high-quality, edited image.\n    "

/-- Parameters of `swapCharactersInImage` (interface `SwapParams`). -/
structure SwapParams where
  sceneImageBase64 : String
  sceneMimeType : String
  characterImageBase64 : String
  characterMimeType : String
  characterScale : String
  sceneComposition : String
  characterAction : String
  artStyle : String
  timeOfDay : String
  atmosphere : String
  negativePrompt : String
  aspectRatio : String
  removeWatermark : Bool
deriving DecidableEq

/-- Parameters of `inpaintImage` (interface `InpaintParams`). -/
structure InpaintParams where
  imageBase64 : String
  imageMimeType : String
  maskBase64 : String
  maskMimeType : String
deriving DecidableEq

/-- JavaScript `String.prototype.toLowerCase`, modelled as per-character
lowercasing. -/
def toLowerCase (s : String) : String := String.mk (s.data.map Char.toLower)

/-- Base text of the art-style instruction. -/
def styleBaseText (p : SwapParams) : String :=
  "**Art Style:** The final image should have a " ++ p.artStyle ++ " style."

/-- Extra sentence appended to the style instruction for photorealistic style. -/
def photorealisticExtra : String :=
  " Pay extreme attention to matching lighting, shadows, perspective, and color grading between the character and the scene to ensure a completely natural and elegant composition with no visual artifacts."

/-- `styleInstruction` of `swapCharactersInImage`: the base sentence, plus the
lighting/shadow/perspective-matching sentence when
`artStyle.toLowerCase() === 'photorealistic'`. -/
def styleInstruction (p : SwapParams) : String :=
  if toLowerCase p.artStyle = "photorealistic" then styleBaseText p ++ photorealisticExtra
  else styleBaseText p

/-- Full text of the time-of-day instruction. -/
def timeInstructionText (p : SwapParams) : String :=
  "**Time of Day:** The lighting should reflect " ++ p.timeOfDay ++ "."

/-- `timeInstruction`: present unless `timeOfDay` is exactly `'As in Scene'`. -/
def timeInstruction (p : SwapParams) : String :=
  if p.timeOfDay ≠ "As in Scene" then timeInstructionText p else ""

/-- Full text of the atmosphere instruction. -/
def atmosphereInstructionText (p : SwapParams) : String :=
  "**Atmosphere:** The overall mood should be " ++ p.atmosphere ++ "."

/-- `atmosphereInstruction`: present exactly when `atmosphere` is truthy,
i.e. a non-empty string. -/
def atmosphereInstruction (p : SwapParams) : String :=
  if p.atmosphere ≠ "" then atmosphereInstructionText p else ""

/-- Full text of the exclusions (negative-prompt) instruction. -/
def negativeInstructionText (p : SwapParams) : String :=
  "**Exclusions:** Do not include the following elements in the image: " ++ p.negativePrompt ++ "."

/-- `negativeInstruction`: present exactly when `negativePrompt` is non-empty. -/
def negativeInstruction (p : SwapParams) : String :=
  if p.negativePrompt ≠ "" then negativeInstructionText p else ""

/-- `aspectRatioInstruction`: always present. -/
def aspectRatioInstruction (p : SwapParams) : String :=
  "**Aspect Ratio:** The final image must have an aspect ratio of " ++ p.aspectRatio ++ "."

/-- Full text of the watermark-removal instruction. -/
def watermarkInstructionText : String :=
  "**Watermark Removal:** Identify and completely remove any watermarks, logos, or signatures from the source images. The final output must be clean."

/-- `watermarkInstruction`: present exactly when `removeWatermark` is true. -/
def watermarkInstruction (p : SwapParams) : String :=
  if p.removeWatermark then watermarkInstructionText else ""

/-- The fusion prompt template literal of `swapCharactersInImage`, with the
interpolations spliced in (`characterAction || 'naturally placed in the
environment'` defaults the action when the string is falsy, i.e. empty). -/
def swapPrompt (p : SwapParams) : String :=
  "\n    This is a highly detailed image editing task. You are provided with two images.\n    1. The first image is the background scene.\n    2. The second image contains a character.\n\n    Your task is to create a new, cohesive image with the following requirements:\n    - Use the first image as the primary background. Remove any existing people or main subjects from it.\n    - Extract only the primary character from the second image.\n    - Seamlessly integrate the character into the background scene.\n    "
  ++ watermarkInstruction p
  ++ "\n\n    **Creative Direction:**\n    "
  ++ styleInstruction p
  ++ "\n    "
  ++ timeInstruction p
  ++ "\n    "
  ++ atmosphereInstruction p
  ++ "\n\n    **Composition Details:**\n    "
  ++ aspectRatioInstruction p
  ++ "\n    - **Scene Composition:** The final image should be a "
  ++ p.sceneComposition
  ++ ".\n    - **Character Scale:** The character should appear "
  ++ p.characterScale
  ++ " relative to the scene.\n    - **Character Action:** The character should be depicted "
  ++ (if p.characterAction = "" then "naturally placed in the environment" else p.characterAction)
  ++ ".\n\n    "
  ++ negativeInstruction p
  ++ "\n\n    The final output must be a single, high-quality image that perfectly merges the character into the scene according to all the specifications above.\n  "

/-- A response modality requested from the API. -/
inductive Modality where
  | IMAGE : Modality
  | TEXT : Modality
deriving DecidableEq, Repr

/-- One part of a `generateContent` request: inline image data with a MIME
type, or text. -/
inductive RequestPart where
  | inlineData (data : String) (mimeType : String) : RequestPart
  | text (s : String) : RequestPart
deriving DecidableEq

/-- A `generateContent` request as assembled by the service functions. -/
structure GenRequest where
  model : String
  parts : List RequestPart
  responseModalities : List Modality
deriving DecidableEq

/-- The model name used for every request. -/
def modelName : String := "gemini-2.5-flash-image-preview"

/-- The request assembled by `swapCharactersInImage`: scene image, character
image, then the fusion prompt, with IMAGE and TEXT response modalities. -/
def swapRequest (p : SwapParams) : GenRequest :=
  { model := modelName
    parts := [ RequestPart.inlineData p.sceneImageBase64 p.sceneMimeType
             , RequestPart.inlineData p.characterImageBase64 p.characterMimeType
             , RequestPart.text (swapPrompt p) ]
    responseModalities := [Modality.IMAGE, Modality.TEXT] }

/-- The request assembled by `inpaintImage`: image to edit, mask, then the
inpainting prompt, with IMAGE and TEXT response modalities. -/
def inpaintRequest (q : InpaintParams) : GenRequest :=
  { model := modelName
    parts := [ RequestPart.inlineData q.imageBase64 q.imageMimeType
             , RequestPart.inlineData q.maskBase64 q.maskMimeType
             , RequestPart.text inpaintPrompt ]
    responseModalities := [Modality.IMAGE, Modality.TEXT] }

/-- Inline data carried by a response part (`inlineData`, with optional
`data`). -/
structure InlineData where
  data : Option String
deriving DecidableEq

/-- One part of an API response. -/
structure Part where
  inlineData : Option InlineData
  text : Option String
deriving DecidableEq

/-- The `content` of a response candidate, with optional `parts`. -/
structure Content where
  parts : Option (List Part)
deriving DecidableEq

/-- One response candidate, with optional `content`. -/
structure Candidate where
  content : Option Content
deriving DecidableEq

/-- A `generateContent` response, with optional `candidates`. -/
structure GenResponse where
  candidates : Option (List Candidate)
deriving DecidableEq

/-- `response.candidates?.[0]?.content?.parts ?? []`: the parts of the first
candidate, or the empty list when any link of the chain is absent. -/
def responseParts (r : GenResponse) : List Part :=
  ((((r.candidates.getD []).head?.bind Candidate.content).bind Content.parts).getD [])

/-- `part.inlineData?.data` as an optional value. -/
def partData (p : Part) : Option String := p.inlineData.bind InlineData.data

/-- JavaScript truthiness of `part.inlineData?.data`: present and non-empty. -/
def carries (p : Part) : Bool := !((partData p).getD "" == "")

/-- The `for` loop over the response parts: return the `inlineData.data` of
the first part whose `inlineData?.data` is truthy, if any. -/
def extractFirstInline : List Part → Option String
  | [] => none
  | p :: ps => if carries p then partData p else extractFirstInline ps

/-- Error message thrown by `swapCharactersInImage` when no part carries image
data, as re-wrapped by its `catch` block. -/
def swapNoImageError : String :=
  "Failed to generate image: The AI did not return an image. It might have refused the request due to safety policies or an inability to process the images."

/-- Error message thrown by `inpaintImage` when no part carries image data, as
re-wrapped by its `catch` block. -/
def inpaintNoImageError : String :=
  "Inpainting failed: The AI did not return an edited image. It may have refused the request."

/-- Outcome of `swapCharactersInImage` on a given API response: the first
inline image data, or a rejection when none is present. -/
def swapExtractImage (r : GenResponse) : Except String String :=
  match extractFirstInline (responseParts r) with
  | some d => Except.ok d
  | none => Except.error swapNoImageError

/-- Outcome of `inpaintImage` on a given API response. -/
def inpaintExtractImage (r : GenResponse) : Except String String :=
  match extractFirstInline (responseParts r) with
  | some d => Except.ok d
  | none => Except.error inpaintNoImageError

/-- An uploaded `File` together with the natural dimensions of the image it
decodes to and the base64 payload of its data URL. -/
structure InputFile where
  width : ℚ
  height : ℚ
  dataBase64 : String
  type : String
deriving DecidableEq

/-- A base64 payload produced by `fileToBase64`: either the file's original
payload passed through unchanged, or the payload of
`canvas.toDataURL(mime, quality)` after drawing the image at the given
dimensions (the encoded bytes themselves are kept symbolic). -/
inductive B64 where
  | raw (s : String) : B64
  | canvasEncoded (width height : ℚ) (mime : String) (quality : ℚ) : B64
deriving DecidableEq

/-- The `FileConversionResult` record of `fileUtils.ts`. -/
structure FileConversionResult where
  base64 : B64
  mimeType : String
deriving DecidableEq

/-- Dimension computation of `fileToBase64` (`MAX_DIMENSION = 1024`): the
nested `width > height` / threshold checks of the resize branch, reached only
when the image is not already within bounds. -/
def fileToBase64Dims (w h : ℚ) : ℚ × ℚ :=
  if w ≤ 1024 ∧ h ≤ 1024 then (w, h)
  else if w > h then
    if w > 1024 then (1024, h * (1024 / w)) else (w, h)
  else
    if h > 1024 then (w * (1024 / h), 1024) else (w, h)

/-- `fileToBase64` of `fileUtils.ts`: images already within 1024×1024 are
passed through with the file's own MIME type; larger images are redrawn on a
canvas at the reduced dimensions and re-encoded, as PNG for PNG inputs and as
JPEG at quality 0.9 for every other input type. -/
def fileToBase64 (f : InputFile) : FileConversionResult :=
  if f.width ≤ 1024 ∧ f.height ≤ 1024 then
    { base64 := B64.raw f.dataBase64, mimeType := f.type }
  else
    let d := fileToBase64Dims f.width f.height
    let outputMimeType := if f.type = "image/png" then "image/png" else "image/jpeg"
    let quality : ℚ := if outputMimeType = "image/jpeg" then 9 / 10 else 1
    { base64 := B64.canvasEncoded d.1 d.2 outputMimeType quality
      mimeType := outputMimeType }

/-- The `App` component state relevant to generation and inpainting. -/
structure AppState where
  sceneImage : Option InputFile
  characterImage : Option InputFile
  resultImage : Option String
  resultImageBase64 : Option String
  isLoading : Bool
  isEditing : Bool
  error : Option String
deriving DecidableEq

/-- `canGenerate` prop passed to `RefinePanel`: `!!sceneImage && !!characterImage`. -/
def canGenerate (s : AppState) : Bool :=
  s.sceneImage.isSome && s.characterImage.isSome

/-- The `disabled` attribute of the Generate button in `RefinePanel`:
`!canGenerate || isLoading`. -/
def generateButtonDisabled (s : AppState) : Bool :=
  !canGenerate s || s.isLoading

/-- Guard error message of `handleGenerate`. -/
def missingImagesError : String := "Please upload both a scene and a character image."

/-- `handleGenerate` of `App.tsx`, with the awaited conversion/API pipeline
summarised by its outcome (`Except.ok` carries the base64 result of
`swapCharactersInImage`, `Except.error` the message of the rejection). The
returned flag records whether the guard was passed and the request pipeline
run at all. -/
def handleGenerate (s : AppState) (api : Except String String) : AppState × Bool :=
  if s.sceneImage.isNone || s.characterImage.isNone then
    ({ s with error := some missingImagesError }, false)
  else
    let s1 := { s with isLoading := true, error := none,
                       resultImage := none, resultImageBase64 := none }
    match api with
    | Except.ok res =>
        ({ s1 with resultImageBase64 := some res
                   resultImage := some ("data:image/png;base64," ++ res)
                   isLoading := false }, true)
    | Except.error e =>
        ({ s1 with error := some e, isLoading := false }, true)

/-- `handleInpaint` of `App.tsx`: sets loading, clears the error, closes the
editor, then either stores the new result or records the wrapped error
message; the previous result fields are never written on the failure path. -/
def handleInpaint (s : AppState) (api : Except String String) : AppState :=
  let s1 := { s with isLoading := true, error := none, isEditing := false }
  match api with
  | Except.ok res =>
      { s1 with resultImageBase64 := some res
                resultImage := some ("data:image/png;base64," ++ res)
                isLoading := false }
  | Except.error e =>
      { s1 with error := some ("Editing failed: " ++ e), isLoading := false }

/-- Render condition of the `ImageEditor` overlay in `App.tsx`:
`isEditing && resultImage && resultImageBase64`. -/
def imageEditorRendered (s : AppState) : Bool :=
  s.isEditing && s.resultImage.isSome && s.resultImageBase64.isSome

/-- The `InpaintParams` built by `handleInpaint` from the editor's save
callback: the current result image and the drawn mask, both declared as
`image/png`. -/
def inpaintParamsOfSave (imageBase64 maskBase64 : String) : InpaintParams :=
  { imageBase64 := imageBase64
    imageMimeType := "image/png"
    maskBase64 := maskBase64
    maskMimeType := "image/png" }

/-- The inpainting submission produced by saving the editor: when (and only
when) the editor is rendered, `handleSave` calls `onSave(imageBase64,
maskBase64)` where `imageBase64` is the `resultImageBase64` prop and
`maskBase64` the PNG-encoded mask canvas, and `handleInpaint` forwards both
with `image/png` MIME types. -/
def inpaintSubmission (s : AppState) (maskBase64 : String) : Option InpaintParams :=
  if imageEditorRendered s then
    s.resultImageBase64.map (fun img => inpaintParamsOfSave img maskBase64)
  else none

/-- `Includes s seg`: `seg` occurs in `s` as a spliced segment. -/
def Includes (s seg : String) : Prop := ∃ a b : String, s = a ++ seg ++ b

/-- Sample response part carrying inline image data. -/
def sampleImagePart : Part := ⟨some ⟨some "IMG64"⟩, none⟩

/-- Sample response part carrying only text. -/
def sampleTextPart : Part := ⟨none, some "Here is your image."⟩

/-- Sample response whose first candidate holds a text part followed by an
image part. -/
def sampleResponse : GenResponse := ⟨some [⟨some ⟨some [sampleTextPart, sampleImagePart]⟩⟩]⟩

/-- Sample response with no candidates at all. -/
def emptyResponse : GenResponse := ⟨none⟩

/-- Sample fusion parameters exercising every optional instruction. -/
def sampleSwapParams : SwapParams :=
  { sceneImageBase64 := "SCENE64"
    sceneMimeType := "image/jpeg"
    characterImageBase64 := "CHAR64"
    characterMimeType := "image/png"
    characterScale := "Medium"
    sceneComposition := "Medium Shot"
    characterAction := ""
    artStyle := "Photorealistic"
    timeOfDay := "Night"
    atmosphere := "dreamy and serene"
    negativePrompt := "text, watermarks"
    aspectRatio := "1:1"
    removeWatermark := true }

/-- Sample app state with no scene upload. -/
def sampleNoSceneState : AppState :=
  ⟨none, some ⟨640, 480, "C64", "image/png"⟩, none, none, false, false, none⟩

/-- Sample app state with both uploads, a generated result and the editor
open. -/
def sampleReadyState : AppState :=
  ⟨some ⟨800, 600, "S64", "image/jpeg"⟩, some ⟨640, 480, "C64", "image/png"⟩,
    some "data:image/png;base64,R64", some "R64", false, true, none⟩

/-! Helper lemmas. -/

/-- A string whose length is zero is the empty string. -/
theorem string_eq_empty_of_length (s : String) (h : s.length = 0) : s = "" := by
  cases s with
  | mk l => simp [String.length] at h; simp [h]

/-- Appending to a non-empty string on the left stays non-empty. -/
theorem append_left_ne_empty (s t : String) (hs : s ≠ "") : s ++ t ≠ "" := by
  intro h
  apply hs
  have hl := congrArg String.length h
  rw [String.length_append] at hl
  have hz : String.length "" = 0 := rfl
  rw [hz] at hl
  exact string_eq_empty_of_length s (by omega)

/-- Appending a non-empty string on the right changes the string. -/
theorem append_right_ne_self (s t : String) (ht : t ≠ "") : s ++ t ≠ s := by
  intro h
  apply ht
  have hl := congrArg String.length h
  rw [String.length_append] at hl
  exact string_eq_empty_of_length t (by omega)

/-- A string is a spliced segment of itself. -/
theorem includes_self (seg : String) : Includes seg seg := ⟨"", "", by simp⟩

/-- A spliced segment survives prepending. -/
theorem includes_left (x y seg : String) (h : Includes y seg) : Includes (x ++ y) seg := by
  obtain ⟨a, b, rfl⟩ := h
  exact ⟨x ++ a, b, by simp [String.append_assoc]⟩

/-- A spliced segment survives appending. -/
theorem includes_right (x y seg : String) (h : Includes y seg) : Includes (y ++ x) seg := by
  obtain ⟨a, b, rfl⟩ := h
  exact ⟨a, b ++ x, by simp [String.append_assoc]⟩

/-- Painting strokes onto a black-or-white canvas keeps every point black or
white. -/
theorem applyStrokes_binary (strokes : List Stroke) :
    ∀ m : Mask, (∀ q, m q = Color.black ∨ m q = Color.white) →
      ∀ q, applyStrokes strokes m q = Color.black ∨ applyStrokes strokes m q = Color.white := by
  induction strokes with
  | nil => intro m hm q; simpa [applyStrokes] using hm q
  | cons st rest ih =>
      intro m hm q
      have hstep : ∀ q2, applyStroke st m q2 = Color.black ∨ applyStroke st m q2 = Color.white := by
        intro q2
        unfold applyStroke
        split
        · exact Or.inl rfl
        · exact hm q2
      have hres := ih (applyStroke st m) hstep q
      simpa [applyStrokes] using hres

/-- Dimension bounds of the `fileToBase64` resize: the larger dimension
becomes exactly 1024, both stay within 1024, the aspect ratio is preserved
exactly and nothing is upscaled. -/
theorem fileToBase64Dims_spec (w h : ℚ) (hw : 0 < w) (hh : 0 < h)
    (hbig : 1024 < w ∨ 1024 < h) :
    max (fileToBase64Dims w h).1 (fileToBase64Dims w h).2 = 1024
    ∧ (fileToBase64Dims w h).1 ≤ 1024
    ∧ (fileToBase64Dims w h).2 ≤ 1024
    ∧ (fileToBase64Dims w h).1 * h = (fileToBase64Dims w h).2 * w
    ∧ (fileToBase64Dims w h).1 ≤ w
    ∧ (fileToBase64Dims w h).2 ≤ h := by
  have hnot : ¬(w ≤ 1024 ∧ h ≤ 1024) := by
    rcases hbig with hb | hb
    · intro hc; linarith [hc.1]
    · intro hc; linarith [hc.2]
  have hw0 : w ≠ 0 := ne_of_gt hw
  have hh0 : h ≠ 0 := ne_of_gt hh
  unfold fileToBase64Dims
  rw [if_neg hnot]
  by_cases hwh : w > h
  · have hwbig : 1024 < w := by
      rcases hbig with hb | hb
      · exact hb
      · linarith
    rw [if_pos hwh, if_pos hwbig]
    have hfr : (1024 : ℚ) / w ≤ 1 := by
      rw [div_le_one hw]; linarith
    have hd2h : h * (1024 / w) ≤ h := mul_le_of_le_one_right (le_of_lt hh) hfr
    have hd2 : h * (1024 / w) ≤ 1024 := by
      have hcmp : h * (1024 / w) ≤ w * (1024 / w) :=
        mul_le_mul_of_nonneg_right (le_of_lt hwh) (by positivity)
      have hww : w * (1024 / w) = 1024 := by field_simp
      linarith
    refine ⟨max_eq_left hd2, le_refl _, hd2, ?_, le_of_lt hwbig, hd2h⟩
    field_simp
    ring
  · have hwh' : w ≤ h := le_of_not_lt hwh
    have hhbig : 1024 < h := by
      rcases hbig with hb | hb
      · linarith
      · exact hb
    rw [if_neg hwh, if_pos hhbig]
    have hfr : (1024 : ℚ) / h ≤ 1 := by
      rw [div_le_one hh]; linarith
    have hd1w : w * (1024 / h) ≤ w := mul_le_of_le_one_right (le_of_lt hw) hfr
    have hd1 : w * (1024 / h) ≤ 1024 := by
      have hcmp : w * (1024 / h) ≤ h * (1024 / h) :=
        mul_le_mul_of_nonneg_right hwh' (by positivity)
      have hhh : h * (1024 / h) = 1024 := by field_simp
      linarith
    refine ⟨max_eq_right hd1, hd1, le_refl _, ?_, hd1w, le_of_lt hhbig⟩
    field_simp
    ring

/-- Dimension bounds of the `ImageEditor` canvas fit: when the image exceeds
1024 in one dimension, the larger dimension becomes exactly 1024 and the
aspect ratio is preserved exactly. -/
theorem editorDims_spec (w h : ℚ) (hw : 0 < w) (hh : 0 < h)
    (hbig : w > 1024 ∨ h > 1024) :
    max (editorDims w h).1 (editorDims w h).2 = 1024
    ∧ (editorDims w h).1 ≤ 1024
    ∧ (editorDims w h).2 ≤ 1024
    ∧ (editorDims w h).1 * h = (editorDims w h).2 * w := by
  have hw0 : w ≠ 0 := ne_of_gt hw
  have hh0 : h ≠ 0 := ne_of_gt hh
  unfold editorDims
  rw [if_pos hbig]
  by_cases hwh : w > h
  · rw [if_pos hwh]
    have hfr : h / w ≤ 1 := by
      rw [div_le_one hw]; linarith
    have hd2 : h / w * 1024 ≤ 1024 := by nlinarith
    refine ⟨max_eq_left hd2, le_refl _, hd2, ?_⟩
    field_simp
    ring
  · rw [if_neg hwh]
    have hwh' : w ≤ h := le_of_not_lt hwh
    have hfr : w / h ≤ 1 := by
      rw [div_le_one hh]; linarith
    have hd1 : w / h * 1024 ≤ 1024 := by nlinarith
    refine ⟨max_eq_right hd1, hd1, le_refl _, ?_⟩
    field_simp
    ring

/-- First-hit extraction agrees with `List.find?` on a successful search. -/
theorem find?_some_extract (ps : List Part) (p : Part)
    (hfind : ps.find? carries = some p) :
    ∃ d : String, partData p = some d ∧ d ≠ "" ∧ extractFirstInline ps = some d := by
  induction ps with
  | nil => simp [List.find?] at hfind
  | cons q rest ih =>
      cases hcq : carries q with
      | true =>
          rw [List.find?_cons_of_pos _ hcq] at hfind
          have hqp : q = p := by injection hfind
          subst hqp
          have hd : ∃ d : String, partData q = some d ∧ d ≠ "" := by
            unfold carries at hcq
            cases hpd : partData q with
            | none => rw [hpd] at hcq; simp at hcq
            | some d =>
                rw [hpd] at hcq
                refine ⟨d, rfl, ?_⟩
                intro hde
                subst hde
                simp at hcq
          obtain ⟨d, hd1, hd2⟩ := hd
          refine ⟨d, hd1, hd2, ?_⟩
          unfold extractFirstInline
          rw [if_pos hcq, hd1]
      | false =>
          rw [List.find?_cons_of_neg _ (by simp [hcq])] at hfind
          obtain ⟨d, h1, h2, h3⟩ := ih hfind
          refine ⟨d, h1, h2, ?_⟩
          unfold extractFirstInline
          rw [if_neg (by simp [hcq])]
          exact h3

/-- First-hit extraction agrees with `List.find?` on a failed search. -/
theorem find?_none_extract (ps : List Part) (hfind : ps.find? carries = none) :
    extractFirstInline ps = none := by
  induction ps with
  | nil => rfl
  | cons q rest ih =>
      cases hcq : carries q with
      | true =>
          rw [List.find?_cons_of_pos _ hcq] at hfind
          exact absurd hfind (by simp)
      | false =>
          rw [List.find?_cons_of_neg _ (by simp [hcq])] at hfind
          unfold extractFirstInline
          rw [if_neg (by simp [hcq])]
          exact ih hfind

/-! Claim theorems. -/

set_option maxRecDepth 8192 in
/-- C1: the hidden mask canvas is initialised entirely white, every brush
stroke paints solid black, so after any sequence of strokes every mask point
is either black (stroked) or white (untouched); and the inpainting prompt
designates the black mask region for regeneration while instructing that the
parts not covered by the mask be left unaltered. -/
theorem c1_mask_is_binary :
    (∀ q : Pt, maskInit q = Color.white)
    ∧ (∀ (strokes : List Stroke) (q : Pt),
        applyStrokes strokes maskInit q = Color.black
        ∨ applyStrokes strokes maskInit q = Color.white)
    ∧ Includes inpaintPrompt
        "The area of the image corresponding to the black area in the mask needs to be removed."
    ∧ Includes inpaintPrompt
        "Do not alter any parts of the image that are not covered by the mask." := by
  refine ⟨fun _ => rfl, ?_, ?_, ?_⟩
  · intro strokes q
    exact applyStrokes_binary strokes maskInit (fun _ => Or.inr rfl) q
  · exact ⟨"\n      You are an expert in photo restoration and editing.\n      The user has provided an image and a corresponding mask image.\n      Your task is to perform an inpainting operation.\n      ",
      "\n      You must then seamlessly and realistically fill in the removed area with new content that matches the surrounding context, lighting, textures, and overall style of the original image.\n      Do not alter any parts of the image that are not covered by the mask.\n      The final output must be a single, high-quality, edited image.\n    ",
      by decide⟩
  · exact ⟨"\n      You are an expert in photo restoration and editing.\n      The user has provided an image and a corresponding mask image.\n      Your task is to perform an inpainting operation.\n      The area of the image corresponding to the black area in the mask needs to be removed.\n      You must then seamlessly and realistically fill in the removed area with new content that matches the surrounding context, lighting, textures, and overall style of the original image.\n      ",
      "\n      The final output must be a single, high-quality, edited image.\n    ",
      by decide⟩

/-- C2: for an uploaded image exceeding 1024 in width or height,
`fileToBase64` re-encodes at reduced dimensions whose larger side is exactly
1024, with the aspect ratio preserved, both sides at most 1024, and neither
side upscaled. -/
theorem c2_fileToBase64_downscale (f : InputFile) (hw : 0 < f.width) (hh : 0 < f.height)
    (hbig : 1024 < f.width ∨ 1024 < f.height) :
    (∃ mime : String, ∃ q : ℚ, (fileToBase64 f).base64
        = B64.canvasEncoded (fileToBase64Dims f.width f.height).1
            (fileToBase64Dims f.width f.height).2 mime q)
    ∧ max (fileToBase64Dims f.width f.height).1 (fileToBase64Dims f.width f.height).2 = 1024
    ∧ (fileToBase64Dims f.width f.height).1 ≤ 1024
    ∧ (fileToBase64Dims f.width f.height).2 ≤ 1024
    ∧ (fileToBase64Dims f.width f.height).1 * f.height
        = (fileToBase64Dims f.width f.height).2 * f.width
    ∧ (fileToBase64Dims f.width f.height).1 ≤ f.width
    ∧ (fileToBase64Dims f.width f.height).2 ≤ f.height := by
  have hnot : ¬(f.width ≤ 1024 ∧ f.height ≤ 1024) := by
    rcases hbig with hb | hb
    · intro hc; linarith [hc.1]
    · intro hc; linarith [hc.2]
  obtain ⟨h1, h2, h3, h4, h5, h6⟩ := fileToBase64Dims_spec f.width f.height hw hh hbig
  refine ⟨?_, h1, h2, h3, h4, h5, h6⟩
  unfold fileToBase64
  rw [if_neg hnot]
  exact ⟨_, _, rfl⟩

/-- C2 witness: a 2048 by 512 upload is downscaled to 1024 by 256. -/
theorem c2_fileToBase64_downscale_witness :
    (0 : ℚ) < (2048 : ℚ) ∧ (0 : ℚ) < (512 : ℚ) ∧ ((1024 : ℚ) < 2048 ∨ (1024 : ℚ) < 512)
    ∧ ((∃ mime : String, ∃ q : ℚ,
          (fileToBase64 ⟨2048, 512, "ORIG64", "image/jpeg"⟩).base64
            = B64.canvasEncoded (fileToBase64Dims 2048 512).1 (fileToBase64Dims 2048 512).2 mime q)
        ∧ max (fileToBase64Dims 2048 512).1 (fileToBase64Dims 2048 512).2 = 1024
        ∧ (fileToBase64Dims 2048 512).1 ≤ 1024
        ∧ (fileToBase64Dims 2048 512).2 ≤ 1024
        ∧ (fileToBase64Dims 2048 512).1 * 512 = (fileToBase64Dims 2048 512).2 * 2048
        ∧ (fileToBase64Dims 2048 512).1 ≤ 2048
        ∧ (fileToBase64Dims 2048 512).2 ≤ 512) :=
  ⟨by norm_num, by norm_num, Or.inl (by norm_num),
    c2_fileToBase64_downscale ⟨2048, 512, "ORIG64", "image/jpeg"⟩
      (by norm_num) (by norm_num) (Or.inl (by norm_num))⟩

/-- C3: when the editor loads an image, the display canvas keeps the original
dimensions if both are within 1024, is otherwise fitted so the larger
dimension equals 1024 with aspect ratio preserved, and the hidden mask canvas
always receives exactly the display canvas's dimensions. -/
theorem c3_editor_mask_dims (w h : ℚ) (hw : 0 < w) (hh : 0 < h) :
    maskCanvasSize w h = editorCanvasSize w h
    ∧ (w ≤ 1024 ∧ h ≤ 1024 → editorCanvasSize w h = (w, h))
    ∧ (1024 < w ∨ 1024 < h →
        max (editorCanvasSize w h).1 (editorCanvasSize w h).2 = 1024
        ∧ (editorCanvasSize w h).1 ≤ 1024
        ∧ (editorCanvasSize w h).2 ≤ 1024
        ∧ (editorCanvasSize w h).1 * h = (editorCanvasSize w h).2 * w) := by
  refine ⟨rfl, ?_, ?_⟩
  · intro hsmall
    have hc : ¬(w > 1024 ∨ h > 1024) := by
      push_neg
      exact ⟨hsmall.1, hsmall.2⟩
    unfold editorCanvasSize editorDims
    rw [if_neg hc]
  · intro hbig
    exact editorDims_spec w h hw hh hbig

/-- C3 witness: a 4096 by 1024 image is displayed at 1024 by 256, a 640 by
480 image is kept as is, and the mask canvas always matches. -/
theorem c3_editor_mask_dims_witness :
    (maskCanvasSize 4096 1024 = editorCanvasSize 4096 1024
      ∧ (max (editorCanvasSize 4096 1024).1 (editorCanvasSize 4096 1024).2 = 1024
        ∧ (editorCanvasSize 4096 1024).1 ≤ 1024
        ∧ (editorCanvasSize 4096 1024).2 ≤ 1024
        ∧ (editorCanvasSize 4096 1024).1 * 1024 = (editorCanvasSize 4096 1024).2 * 4096))
    ∧ editorCanvasSize 640 480 = (640, 480) :=
  ⟨⟨(c3_editor_mask_dims 4096 1024 (by norm_num) (by norm_num)).1,
    (c3_editor_mask_dims 4096 1024 (by norm_num) (by norm_num)).2.2 (Or.inl (by norm_num))⟩,
    (c3_editor_mask_dims 640 480 (by norm_num) (by norm_num)).2.1 ⟨by norm_num, by norm_num⟩⟩

/-- C6: the fusion request consists of exactly the scene image, the character
image and the composed prompt, in that order, and requests IMAGE and TEXT
response modalities; the inpainting request likewise consists of the image,
the mask and the inpainting prompt with the same modalities. -/
theorem c6_request_structure (p : SwapParams) (q : InpaintParams) :
    (swapRequest p).parts
      = [RequestPart.inlineData p.sceneImageBase64 p.sceneMimeType,
         RequestPart.inlineData p.characterImageBase64 p.characterMimeType,
         RequestPart.text (swapPrompt p)]
    ∧ (swapRequest p).parts.length = 3
    ∧ (swapRequest p).responseModalities = [Modality.IMAGE, Modality.TEXT]
    ∧ (inpaintRequest q).parts
      = [RequestPart.inlineData q.imageBase64 q.imageMimeType,
         RequestPart.inlineData q.maskBase64 q.maskMimeType,
         RequestPart.text inpaintPrompt]
    ∧ (inpaintRequest q).parts.length = 3
    ∧ (inpaintRequest q).responseModalities = [Modality.IMAGE, Modality.TEXT] :=
  ⟨rfl, rfl, rfl, rfl, rfl, rfl⟩

/-- C9: an image already within 1024 by 1024 is passed through with its
original base64 payload and the file's own MIME type; a larger image is
re-encoded as PNG exactly when the input is PNG and as JPEG at quality 0.9
for every other type. -/
theorem c9_fileToBase64_mime (f : InputFile) :
    (f.width ≤ 1024 ∧ f.height ≤ 1024 →
        fileToBase64 f = ⟨B64.raw f.dataBase64, f.type⟩)
    ∧ (¬(f.width ≤ 1024 ∧ f.height ≤ 1024) →
        (f.type = "image/png" →
            fileToBase64 f
              = ⟨B64.canvasEncoded (fileToBase64Dims f.width f.height).1
                  (fileToBase64Dims f.width f.height).2 "image/png" 1, "image/png"⟩)
        ∧ (f.type ≠ "image/png" →
            fileToBase64 f
              = ⟨B64.canvasEncoded (fileToBase64Dims f.width f.height).1
                  (fileToBase64Dims f.width f.height).2 "image/jpeg" (9 / 10), "image/jpeg"⟩)) := by
  refine ⟨?_, ?_⟩
  · intro hsmall
    unfold fileToBase64
    rw [if_pos hsmall]
  · intro hnot
    refine ⟨?_, ?_⟩
    · intro hpng
      unfold fileToBase64
      rw [if_neg hnot]
      simp only [hpng]
      rfl
    · intro hnotpng
      unfold fileToBase64
      rw [if_neg hnot]
      simp only [if_neg hnotpng]
      rfl

/-- C9 witness: a small WEBP upload is passed through with its own MIME type,
while an oversized WEBP upload is re-encoded as JPEG at quality 0.9. -/
theorem c9_fileToBase64_mime_witness :
    fileToBase64 ⟨800, 600, "WEBP64", "image/webp"⟩ = ⟨B64.raw "WEBP64", "image/webp"⟩
    ∧ fileToBase64 ⟨2048, 512, "WEBP64", "image/webp"⟩
        = ⟨B64.canvasEncoded (fileToBase64Dims 2048 512).1 (fileToBase64Dims 2048 512).2
            "image/jpeg" (9 / 10), "image/jpeg"⟩ :=
  ⟨(c9_fileToBase64_mime ⟨800, 600, "WEBP64", "image/webp"⟩).1 ⟨by norm_num, by norm_num⟩,
    ((c9_fileToBase64_mime ⟨2048, 512, "WEBP64", "image/webp"⟩).2
      (by intro hc; exact absurd hc.1 (by norm_num))).2 (by decide)⟩

/-- C4: both service functions resolve with the inline data of the first
response part that carries (truthy) image data among the first candidate's
parts, and reject with their respective error message when no part carries
image data. -/
theorem c4_first_image_part (r : GenResponse) :
    (∀ p : Part, (responseParts r).find? carries = some p →
        ∃ d : String, partData p = some d ∧ d ≠ ""
          ∧ swapExtractImage r = Except.ok d ∧ inpaintExtractImage r = Except.ok d)
    ∧ ((responseParts r).find? carries = none →
        swapExtractImage r = Except.error swapNoImageError
        ∧ inpaintExtractImage r = Except.error inpaintNoImageError) := by
  constructor
  · intro p hp
    obtain ⟨d, h1, h2, h3⟩ := find?_some_extract _ p hp
    refine ⟨d, h1, h2, ?_, ?_⟩
    · unfold swapExtractImage
      rw [h3]
    · unfold inpaintExtractImage
      rw [h3]
  · intro hnone
    have h3 := find?_none_extract _ hnone
    constructor
    · unfold swapExtractImage
      rw [h3]
    · unfold inpaintExtractImage
      rw [h3]

/-- C4 witness: on a response whose first candidate holds a text part and
then an image part, both functions resolve with that image data; on a
response with no candidates, both reject. -/
theorem c4_first_image_part_witness :
    (∃ d : String, partData sampleImagePart = some d ∧ d ≠ ""
      ∧ swapExtractImage sampleResponse = Except.ok d
      ∧ inpaintExtractImage sampleResponse = Except.ok d)
    ∧ (swapExtractImage emptyResponse = Except.error swapNoImageError
      ∧ inpaintExtractImage emptyResponse = Except.error inpaintNoImageError) :=
  ⟨(c4_first_image_part sampleResponse).1 sampleImagePart rfl,
    (c4_first_image_part emptyResponse).2 rfl⟩

/-- C5: when either upload is missing, `handleGenerate` records the guard
error and returns without running the request pipeline, `canGenerate` is
false, and the Generate button is disabled. -/
theorem c5_generate_requires_both (s : AppState) (api : Except String String)
    (hmiss : s.sceneImage = none ∨ s.characterImage = none) :
    (handleGenerate s api).2 = false
    ∧ (handleGenerate s api).1.error = some missingImagesError
    ∧ canGenerate s = false
    ∧ generateButtonDisabled s = true := by
  have hcond : (s.sceneImage.isNone || s.characterImage.isNone) = true := by
    rcases hmiss with h | h <;> simp [h]
  have hcg : canGenerate s = false := by
    unfold canGenerate
    rcases hmiss with h | h <;> simp [h]
  refine ⟨?_, ?_, hcg, ?_⟩
  · simp [handleGenerate, hcond]
  · simp [handleGenerate, hcond]
  · unfold generateButtonDisabled
    rw [hcg]
    rfl

/-- C5 witness: with no scene upload the pipeline flag is false, the guard
error is set, and the button is disabled. -/
theorem c5_generate_requires_both_witness :
    (handleGenerate sampleNoSceneState (Except.ok "R64")).2 = false
    ∧ (handleGenerate sampleNoSceneState (Except.ok "R64")).1.error = some missingImagesError
    ∧ canGenerate sampleNoSceneState = false
    ∧ generateButtonDisabled sampleNoSceneState = true :=
  c5_generate_requires_both sampleNoSceneState (Except.ok "R64") (Or.inl rfl)

/-- C7: the composed fusion prompt splices in the time-of-day instruction
exactly when `timeOfDay` is not `'As in Scene'`, the atmosphere and
exclusions instructions exactly when their inputs are non-empty, the
watermark-removal instruction exactly when `removeWatermark` is set, and the
lighting/shadow/perspective sentence is appended to the style instruction
exactly when the lowercased art style is `photorealistic` (otherwise the
spliced instruction is the empty string, respectively the bare style
sentence). -/
theorem c7_prompt_conditions (p : SwapParams) :
    (timeInstructionText p ≠ ""
      ∧ (p.timeOfDay ≠ "As in Scene" →
          timeInstruction p = timeInstructionText p
          ∧ Includes (swapPrompt p) (timeInstructionText p))
      ∧ (p.timeOfDay = "As in Scene" → timeInstruction p = ""))
    ∧ (atmosphereInstructionText p ≠ ""
      ∧ (p.atmosphere ≠ "" →
          atmosphereInstruction p = atmosphereInstructionText p
          ∧ Includes (swapPrompt p) (atmosphereInstructionText p))
      ∧ (p.atmosphere = "" → atmosphereInstruction p = ""))
    ∧ (negativeInstructionText p ≠ ""
      ∧ (p.negativePrompt ≠ "" →
          negativeInstruction p = negativeInstructionText p
          ∧ Includes (swapPrompt p) (negativeInstructionText p))
      ∧ (p.negativePrompt = "" → negativeInstruction p = ""))
    ∧ (watermarkInstructionText ≠ ""
      ∧ (p.removeWatermark = true →
          watermarkInstruction p = watermarkInstructionText
          ∧ Includes (swapPrompt p) watermarkInstructionText)
      ∧ (p.removeWatermark = false → watermarkInstruction p = ""))
    ∧ ((toLowerCase p.artStyle = "photorealistic" →
          styleInstruction p = styleBaseText p ++ photorealisticExtra
          ∧ Includes (swapPrompt p) (styleBaseText p ++ photorealisticExtra))
      ∧ (toLowerCase p.artStyle ≠ "photorealistic" →
          styleInstruction p = styleBaseText p
          ∧ Includes (swapPrompt p) (styleBaseText p))
      ∧ styleBaseText p ++ photorealisticExtra ≠ styleBaseText p) := by
  refine ⟨⟨?_, ?_, ?_⟩, ⟨?_, ?_, ?_⟩, ⟨?_, ?_, ?_⟩, ⟨?_, ?_, ?_⟩, ?_, ?_, ?_⟩
  · unfold timeInstructionText
    exact append_left_ne_empty _ _ (append_left_ne_empty _ _ (by decide))
  · intro hcond
    have ht : timeInstruction p = timeInstructionText p := by
      unfold timeInstruction
      rw [if_pos hcond]
    refine ⟨ht, ?_⟩
    unfold swapPrompt
    rw [ht]
    iterate 13 apply includes_right
    apply includes_left
    exact includes_self _
  · intro hcond
    unfold timeInstruction
    rw [if_neg (not_not_intro hcond)]
  · unfold atmosphereInstructionText
    exact append_left_ne_empty _ _ (append_left_ne_empty _ _ (by decide))
  · intro hcond
    have ha : atmosphereInstruction p = atmosphereInstructionText p := by
      unfold atmosphereInstruction
      rw [if_pos hcond]
    refine ⟨ha, ?_⟩
    unfold swapPrompt
    rw [ha]
    iterate 11 apply includes_right
    apply includes_left
    exact includes_self _
  · intro hcond
    unfold atmosphereInstruction
    rw [if_neg (not_not_intro hcond)]
  · unfold negativeInstructionText
    exact append_left_ne_empty _ _ (append_left_ne_empty _ _ (by decide))
  · intro hcond
    have hn : negativeInstruction p = negativeInstructionText p := by
      unfold negativeInstruction
      rw [if_pos hcond]
    refine ⟨hn, ?_⟩
    unfold swapPrompt
    rw [hn]
    iterate 1 apply includes_right
    apply includes_left
    exact includes_self _
  · intro hcond
    unfold negativeInstruction
    rw [if_neg (not_not_intro hcond)]
  · decide
  · intro hcond
    have hw : watermarkInstruction p = watermarkInstructionText := by
      unfold watermarkInstruction
      rw [if_pos hcond]
    refine ⟨hw, ?_⟩
    unfold swapPrompt
    rw [hw]
    iterate 17 apply includes_right
    apply includes_left
    exact includes_self _
  · intro hcond
    unfold watermarkInstruction
    rw [if_neg (by simp [hcond])]
  · intro hcond
    have hst : styleInstruction p = styleBaseText p ++ photorealisticExtra := by
      unfold styleInstruction
      rw [if_pos hcond]
    refine ⟨hst, ?_⟩
    unfold swapPrompt
    rw [hst]
    iterate 15 apply includes_right
    apply includes_left
    exact includes_self _
  · intro hcond
    have hst : styleInstruction p = styleBaseText p := by
      unfold styleInstruction
      rw [if_neg hcond]
    refine ⟨hst, ?_⟩
    unfold swapPrompt
    rw [hst]
    iterate 15 apply includes_right
    apply includes_left
    exact includes_self _
  · exact append_right_ne_self _ _ (by decide)

/-- C7 witness: with `timeOfDay = 'Night'`, a non-empty atmosphere and
negative prompt, watermark removal on and the `Photorealistic` style, every
instruction is spliced into the prompt in its full form. -/
theorem c7_prompt_conditions_witness :
    (timeInstruction sampleSwapParams = timeInstructionText sampleSwapParams
      ∧ Includes (swapPrompt sampleSwapParams) (timeInstructionText sampleSwapParams))
    ∧ (atmosphereInstruction sampleSwapParams = atmosphereInstructionText sampleSwapParams
      ∧ Includes (swapPrompt sampleSwapParams) (atmosphereInstructionText sampleSwapParams))
    ∧ (negativeInstruction sampleSwapParams = negativeInstructionText sampleSwapParams
      ∧ Includes (swapPrompt sampleSwapParams) (negativeInstructionText sampleSwapParams))
    ∧ (watermarkInstruction sampleSwapParams = watermarkInstructionText
      ∧ Includes (swapPrompt sampleSwapParams) watermarkInstructionText)
    ∧ (styleInstruction sampleSwapParams = styleBaseText sampleSwapParams ++ photorealisticExtra
      ∧ Includes (swapPrompt sampleSwapParams)
          (styleBaseText sampleSwapParams ++ photorealisticExtra)) := by
  have h := c7_prompt_conditions sampleSwapParams
  exact ⟨h.1.2.1 (by decide), h.2.1.2.1 (by decide), h.2.2.1.2.1 (by decide),
    h.2.2.2.1.2.1 rfl, h.2.2.2.2.1 (by decide)⟩

/-- C8: the image editor is rendered only when `isEditing`, `resultImage` and
`resultImageBase64` are all set; saving it submits exactly the current result
image and the drawn mask, both declared `image/png`, and the resulting
inpaint request is determined by the result image and the mask alone — the
scene and character uploads play no part. -/
theorem c8_editor_resubmission (s : AppState) (mask : String) :
    (imageEditorRendered s = true →
        s.isEditing = true ∧ s.resultImage.isSome = true ∧ s.resultImageBase64.isSome = true)
    ∧ (∀ img : String, s.resultImageBase64 = some img → imageEditorRendered s = true →
        inpaintSubmission s mask = some (inpaintParamsOfSave img mask)
        ∧ (inpaintParamsOfSave img mask).imageMimeType = "image/png"
        ∧ (inpaintParamsOfSave img mask).maskMimeType = "image/png"
        ∧ (inpaintRequest (inpaintParamsOfSave img mask)).parts
            = [RequestPart.inlineData img "image/png",
               RequestPart.inlineData mask "image/png",
               RequestPart.text inpaintPrompt])
    ∧ (imageEditorRendered s = false → inpaintSubmission s mask = none)
    ∧ (∀ t : AppState, s.isEditing = t.isEditing → s.resultImage = t.resultImage →
        s.resultImageBase64 = t.resultImageBase64 →
        inpaintSubmission s mask = inpaintSubmission t mask) := by
  refine ⟨?_, ?_, ?_, ?_⟩
  · intro h
    unfold imageEditorRendered at h
    simp [Bool.and_eq_true] at h
    exact ⟨h.1.1, h.1.2, h.2⟩
  · intro img himg hrend
    refine ⟨?_, rfl, rfl, rfl⟩
    unfold inpaintSubmission
    rw [if_pos hrend, himg]
    rfl
  · intro hrend
    unfold inpaintSubmission
    rw [if_neg (by simp [hrend])]
  · intro t h1 h2 h3
    unfold inpaintSubmission imageEditorRendered
    rw [h1, h2, h3]

/-- C8 witness: in a state with the editor open over a result, saving with a
drawn mask submits the result image and the mask as `image/png`. -/
theorem c8_editor_resubmission_witness :
    (sampleReadyState.isEditing = true
      ∧ sampleReadyState.resultImage.isSome = true
      ∧ sampleReadyState.resultImageBase64.isSome = true)
    ∧ inpaintSubmission sampleReadyState "MASK64" = some (inpaintParamsOfSave "R64" "MASK64")
    ∧ (inpaintRequest (inpaintParamsOfSave "R64" "MASK64")).parts
        = [RequestPart.inlineData "R64" "image/png",
           RequestPart.inlineData "MASK64" "image/png",
           RequestPart.text inpaintPrompt] := by
  have h := c8_editor_resubmission sampleReadyState "MASK64"
  exact ⟨h.1 rfl, (h.2.1 "R64" rfl rfl).1, (h.2.1 "R64" rfl rfl).2.2.2⟩

/-- C10: a failed inpainting call leaves the previous result untouched and
only records the wrapped error, a successful one replaces the result, while
`handleGenerate` clears the result before running the pipeline, so even its
failure path ends with no result. -/
theorem c10_inpaint_failure_keeps_result (s : AppState) (e res e2 : String) :
    ((handleInpaint s (Except.error e)).resultImage = s.resultImage
      ∧ (handleInpaint s (Except.error e)).resultImageBase64 = s.resultImageBase64
      ∧ (handleInpaint s (Except.error e)).error = some ("Editing failed: " ++ e))
    ∧ ((handleInpaint s (Except.ok res)).resultImageBase64 = some res
      ∧ (handleInpaint s (Except.ok res)).resultImage
          = some ("data:image/png;base64," ++ res))
    ∧ (s.sceneImage.isSome = true → s.characterImage.isSome = true →
        (handleGenerate s (Except.error e2)).1.resultImage = none
        ∧ (handleGenerate s (Except.error e2)).1.resultImageBase64 = none
        ∧ (handleGenerate s (Except.error e2)).1.error = some e2) := by
  refine ⟨⟨rfl, rfl, rfl⟩, ⟨rfl, rfl⟩, ?_⟩
  intro h1 h2
  obtain ⟨x, hx⟩ := Option.isSome_iff_exists.mp h1
  obtain ⟨y, hy⟩ := Option.isSome_iff_exists.mp h2
  refine ⟨?_, ?_, ?_⟩ <;> simp [handleGenerate, hx, hy]

/-- C10 witness: with a stored result, a failed inpaint keeps the result and
records the wrapped error, while a failed generate leaves no result. -/
theorem c10_inpaint_failure_keeps_result_witness :
    ((handleInpaint sampleReadyState (Except.error "boom")).resultImage
        = sampleReadyState.resultImage
      ∧ (handleInpaint sampleReadyState (Except.error "boom")).resultImageBase64
        = sampleReadyState.resultImageBase64
      ∧ (handleInpaint sampleReadyState (Except.error "boom")).error
        = some ("Editing failed: " ++ "boom"))
    ∧ ((handleGenerate sampleReadyState (Except.error "bang")).1.resultImage = none
      ∧ (handleGenerate sampleReadyState (Except.error "bang")).1.resultImageBase64 = none
      ∧ (handleGenerate sampleReadyState (Except.error "bang")).1.error = some "bang") := by
  have h := c10_inpaint_failure_keeps_result sampleReadyState "boom" "R64" "bang"
  exact ⟨h.1, h.2.2 rfl rfl⟩

end PhotoChange
